import Mathlib

/-!
Verification of the primrose-mcp-figma server core: a shallow embedding of
the API client request/response contract (src/client.ts), the credential
resolver (src/types/env.ts), the response formatters (src/utils/formatters.ts)
and the route handler (src/index.ts), together with theorems settling the
testable properties stated in the specification.

JavaScript values that the code inspects are modelled explicitly: JSON values
as an inductive `Json`, JS truthiness as `Json.truthy`, `parseInt(s, 10)` as
`parseIntJs` (with `none` standing for `NaN`), and optional / absent values as
`Option`.
-/

namespace FigmaMcp

/-- JSON values as produced by `JSON.parse`. Numbers are carried as integers:
no arithmetic is ever performed on them by the code under study, they are only
transported, compared for truthiness, or re-serialized. -/
inductive Json where
  | null
  | bool (b : Bool)
  | num (n : Int)
  | str (s : String)
  | arr (elems : List Json)
  | obj (fields : List (String × Json))

/-- JS truthiness of a JSON value: `null`, `false`, `0` and `""` are falsy,
every array and object is truthy. -/
def Json.truthy : Json → Bool
  | .null => false
  | .bool b => b
  | .num n => n != 0
  | .str s => s != ""
  | .arr _ => true
  | .obj _ => true

/-- JS property access `j[key]` on a parsed JSON value: a lookup on objects,
`undefined` (modelled as `none`) on every other value. -/
def Json.getField : Json → String → Option Json
  | .obj fields, key => fields.lookup key
  | _, _ => none

/-- JS short-circuit `x || y` where `x` is a possibly-undefined JSON value:
the left operand is kept exactly when it is present and truthy. -/
def jsOr (x : Option Json) (y : Json) : Json :=
  match x with
  | some v => if v.truthy then v else y
  | none => y

/-- The value of field `key` of `j` when that field is present and truthy,
`none` otherwise. Used to restate the `a || b || c` chain of the client. -/
def truthyField (j : Json) (key : String) : Option Json :=
  match j.getField key with
  | some v => if v.truthy then some v else none
  | none => none

/-- Whitespace characters skipped by `parseInt` (the common ASCII ones). -/
def jsWhitespace (c : Char) : Bool :=
  c = ' ' || c = '\t' || c = '\n' || c = '\r'

/-- Leading decimal digits of a character list, `none` when there are none. -/
def parseDigits (cs : List Char) : Option Nat :=
  let ds := cs.takeWhile Char.isDigit
  if ds.isEmpty then none
  else some (ds.foldl (fun acc c => acc * 10 + (c.toNat - 48)) 0)

/-- JS `parseInt(s, 10)`: skip leading whitespace, read an optional sign and
then the longest prefix of decimal digits. `none` models the result `NaN`,
returned when no digit is found. -/
def parseIntJs (s : String) : Option Int :=
  let cs := s.data.dropWhile jsWhitespace
  match cs with
  | '-' :: rest => (parseDigits rest).map (fun n => -(n : Int))
  | '+' :: rest => (parseDigits rest).map (fun n => (n : Int))
  | _ => (parseDigits cs).map (fun n => (n : Int))

/-- Tenant credentials parsed from request headers (src/types/env.ts). -/
structure TenantCredentials where
  accessToken : Option String
  baseUrl : Option String
deriving Repr, DecidableEq

/-- JS falsiness of an optional string: absent (`undefined`) or empty. -/
def strFalsy : Option String → Bool
  | none => true
  | some s => s = ""

/-- ASCII lowercasing of one character (header names are ASCII). -/
def lowerChar (c : Char) : Char :=
  if 'A' ≤ c ∧ c ≤ 'Z' then Char.ofNat (c.toNat + 32) else c

/-- Case-insensitive string comparison, as the Fetch API applies to header
names. -/
def lowerEq (a b : String) : Bool :=
  a.data.map lowerChar = b.data.map lowerChar

/-- The `headers.get(name)` lookup of the Fetch API, over headers modelled as
a name-value list: header names compare case-insensitively, and an absent
header yields `null` (here `none`). -/
def headersGet (headers : List (String × String)) (name : String) : Option String :=
  (headers.find? (fun p => lowerEq p.1 name)).map (fun p => p.2)

/-- `parseTenantCredentials` (src/types/env.ts): reads the two well-known
headers; `headers.get(h) || undefined` turns an absent or empty header into an
absent field. -/
def parseTenantCredentials (headers : List (String × String)) : TenantCredentials :=
  { accessToken :=
      match headersGet headers "X-Figma-Token" with
      | some s => if s = "" then none else some s
      | none => none,
    baseUrl :=
      match headersGet headers "X-Figma-Base-URL" with
      | some s => if s = "" then none else some s
      | none => none }

/-- The message of the error thrown by `validateCredentials`. -/
def missingCredentialsMessage : String :=
  "Missing credentials. Provide X-Figma-Token header with your Figma personal access token."

/-- `validateCredentials` (src/types/env.ts): throws exactly when the access
token field is falsy. -/
def validateCredentials (credentials : TenantCredentials) : Except String Unit :=
  if strFalsy credentials.accessToken then .error missingCredentialsMessage
  else .ok ()

/-- Modelled from the spec: the error classes live in src/utils/errors.ts,
which is not among the sources; only their import and construction sites are.
Per spec section 7 the taxonomy is AuthenticationError, ForbiddenError,
NotFoundError (resource kind and path), RateLimitError (retry-after seconds)
and generic ApiError (status and message); each constructor carries exactly
the arguments passed at the construction sites in src/client.ts. A retry-after
field of `none` models the JS number `NaN`; the generic message is carried as
a JSON value because the `||` chain that computes it can produce any truthy
JSON value. `jsonParse` models the rejection of `response.json()` on a 2xx
response whose body is not valid JSON. -/
inductive FigmaError where
  | authentication (message : String)
  | forbidden (message : String)
  | notFound (resource : String) (path : String)
  | rateLimit (message : String) (retryAfter : Option Int)
  | api (message : Json) (status : Nat)
  | jsonParse

/-- Modelled from the spec: the `.message` property of each error class
(src/utils/errors.ts is not among the sources). Constructor messages are the
strings passed in src/client.ts; the NotFoundError and generic-ApiError
renderings follow the spec wording. Nothing proved below depends on the exact
text produced here beyond it being the message the error was built from. -/
def figmaErrorMessage : FigmaError → String
  | .authentication m => m
  | .forbidden m => m
  | .notFound resource path => resource ++ " not found: " ++ path
  | .rateLimit m _ => m
  | .api m _ =>
      match m with
      | .str s => s
      | _ => "API error"
  | .jsonParse => "Unexpected end of JSON input"

/-- Modelled from the spec: spec section 7 says the generic API error is
"flagged retryable or not by convention of status code"; rate limiting and
server-side statuses count as retryable. Only the envelope shape, never this
flag, is asserted by the theorems below. -/
def figmaErrorRetryable : FigmaError → Bool
  | .rateLimit _ _ => true
  | .api _ status => 500 ≤ status
  | _ => false

/-- Class name of each error kind, used by the modelled logging helper. -/
def figmaErrorKind : FigmaError → String
  | .authentication _ => "AuthenticationError"
  | .forbidden _ => "ForbiddenError"
  | .notFound _ _ => "NotFoundError"
  | .rateLimit _ _ => "RateLimitError"
  | .api _ _ => "FigmaApiError"
  | .jsonParse => "SyntaxError"

/-- A JS thrown value as observed by a `catch` block: one of the typed client
errors, some other `Error` instance carrying a message, or an arbitrary thrown
non-`Error` value. -/
inductive Thrown where
  | figma (e : FigmaError)
  | error (message : String)
  | raw (value : Json)

/-- `error instanceof Error ? error.message : ...` with the fallback used by
`testConnection` (src/client.ts line 349): the typed client errors are `Error`
instances, so only a thrown non-`Error` value takes the fallback. -/
def thrownMessage : Thrown → String
  | .figma e => figmaErrorMessage e
  | .error m => m
  | .raw _ => "Connection failed"

/-- Modelled from the spec: `formatErrorForLogging` lives in
src/utils/errors.ts, which is not among the sources. Spec sections 4.3 and 7
say a failure envelope carries "a structured details object"; this model
records the error kind and message. The theorems below depend only on this
being some JSON value. -/
def formatErrorForLogging : Thrown → Json :=
  fun e =>
    match e with
    | .figma err => .obj [("name", .str (figmaErrorKind err)), ("message", .str (figmaErrorMessage err))]
    | .error m => .obj [("name", .str "Error"), ("message", .str m)]
    | .raw v => .obj [("name", .str "unknown"), ("value", v)]

/-- An upstream HTTP response as the client observes it: the status code, the
`Retry-After` header (absent or its string value), and the outcome of parsing
the body text as JSON (`none` when the text is not valid JSON). -/
structure HttpResponse where
  status : Nat
  retryAfterHeader : Option String
  body : Option Json

/-- `response.ok` of the Fetch API: status in the inclusive range 200-299. -/
def responseOk (status : Nat) : Bool :=
  decide (200 ≤ status ∧ status ≤ 299)

/-- The retry-after seconds computed at src/client.ts line 299:
`retryAfter ? parseInt(retryAfter, 10) : 60`. The default 60 is taken when the
header is absent or empty (falsy); a present non-empty header goes through
`parseInt`, whose result `none` models `NaN`. -/
def retryAfterValue (header : Option String) : Option Int :=
  match header with
  | some s => if s = "" then some 60 else parseIntJs s
  | none => some 60

/-- The generic-error message computed at src/client.ts lines 319-326:
start from the fallback `"API error: " ++ status`, parse the body text, and
replace the fallback by `errorJson.message || errorJson.err || errorJson.error
|| message`. An unparseable body keeps the fallback. -/
def extractApiErrorMessage (status : Nat) (body : Option Json) : Json :=
  let fallback := Json.str ("API error: " ++ toString status)
  match body with
  | none => fallback
  | some j => jsOr (j.getField "message") (jsOr (j.getField "err") (jsOr (j.getField "error") fallback))

/-- The response-classification segment of `FigmaClientImpl.request`
(src/client.ts lines 296-335), shared by every operation: the status checks in
source order (429, 401, 403, 404, any other non-ok, 204), then the parsed body
as the successful result. `.ok none` models the `undefined` result of a 204
response. -/
def classifyResponse (endpoint : String) (response : HttpResponse) : Except FigmaError (Option Json) :=
  if response.status = 429 then
    .error (.rateLimit "Rate limit exceeded" (retryAfterValue response.retryAfterHeader))
  else if response.status = 401 then
    .error (.authentication "Authentication failed. Check your Figma personal access token.")
  else if response.status = 403 then
    .error (.forbidden "Access forbidden. You may not have permission to access this resource.")
  else if response.status = 404 then
    .error (.notFound "Resource" endpoint)
  else if responseOk response.status = false then
    .error (.api (extractApiErrorMessage response.status response.body) response.status)
  else if response.status = 204 then
    .ok none
  else
    match response.body with
    | some j => .ok (some j)
    | none => .error .jsonParse

/-- `FigmaClientImpl.getAuthHeaders` (src/client.ts lines 272-283): throws an
authentication error when the access token is falsy, otherwise returns the two
upstream headers. -/
def getAuthHeaders (credentials : TenantCredentials) : Except FigmaError (List (String × String)) :=
  if strFalsy credentials.accessToken then
    .error (.authentication "No credentials provided. Include X-Figma-Token header with your Figma personal access token.")
  else
    .ok [("X-Figma-Token", credentials.accessToken.getD ""), ("Content-Type", "application/json")]

/-- `FigmaClientImpl.request` (src/client.ts lines 285-336): builds the auth
headers (which can itself fail) and then classifies the upstream response. -/
def request (credentials : TenantCredentials) (endpoint : String) (response : HttpResponse) : Except FigmaError (Option Json) :=
  match getAuthHeaders credentials with
  | .error e => .error e
  | .ok _ => classifyResponse endpoint response

/-- The record returned by `testConnection` (src/client.ts lines 342-352). -/
structure ConnectionResult where
  connected : Bool
  message : String
  user : Option Json

/-- `FigmaClientImpl.testConnection` (src/client.ts lines 342-352) as a
function of the outcome of the underlying `getMe` call: a total function,
since the source catches every thrown value. -/
def testConnection (getMeOutcome : Except Thrown Json) : ConnectionResult :=
  match getMeOutcome with
  | .ok user => { connected := true, message := "Successfully connected to Figma API", user := some user }
  | .error e => { connected := false, message := thrownMessage e, user := none }

/-- One escaped character of a serialized JSON string. -/
def escapeJsonChar (c : Char) : String :=
  if c = '"' then "\\\""
  else if c = '\\' then "\\\\"
  else if c = '\n' then "\\n"
  else if c = '\r' then "\\r"
  else if c = '\t' then "\\t"
  else String.singleton c

/-- A JSON string literal with the usual escapes. -/
def escapeJsonString (s : String) : String :=
  "\"" ++ String.join (s.data.map escapeJsonChar) ++ "\""

mutual

/-- Model of the library call `JSON.stringify` (compact form; the source asks
for two-space indentation, which none of the claims inspect): a total
serializer of JSON values. The theorems below depend only on this being a
string. -/
def jsonStringify : Json → String
  | .null => "null"
  | .bool b => cond b "true" "false"
  | .num n => toString n
  | .str s => escapeJsonString s
  | .arr xs => "[" ++ jsonStringifyArr xs ++ "]"
  | .obj fs => "\x7b" ++ jsonStringifyObj fs ++ "\x7d"

/-- Comma-separated serialization of the elements of a JSON array. -/
def jsonStringifyArr : List Json → String
  | [] => ""
  | [x] => jsonStringify x
  | x :: xs => jsonStringify x ++ "," ++ jsonStringifyArr xs

/-- Comma-separated serialization of the fields of a JSON object. -/
def jsonStringifyObj : List (String × Json) → String
  | [] => ""
  | [(k, v)] => escapeJsonString k ++ ":" ++ jsonStringify v
  | (k, v) :: fs => escapeJsonString k ++ ":" ++ jsonStringify v ++ "," ++ jsonStringifyObj fs

end

/-- Model of JS `String(value)` coercion, used by `formatError` on a thrown
non-`Error` value. The envelope theorems do not inspect its output. -/
def jsString : Json → String
  | .str s => s
  | v => jsonStringify v

/-- One content block of a tool response (src/utils/formatters.ts lines
12-16): a `type` tag and the text payload. -/
structure ContentBlock where
  type : String
  text : String

/-- The MCP tool response envelope (src/utils/formatters.ts lines 12-16). -/
structure ToolResponse where
  content : List ContentBlock
  isError : Option Bool

/-- `formatResponse` (src/utils/formatters.ts lines 21-25): one text block
holding the serialized data, and no `isError` field. -/
def formatResponse (data : Json) : ToolResponse :=
  { content := [{ type := "text", text := jsonStringify data }], isError := none }

/-- `formatError` (src/utils/formatters.ts lines 30-54): builds the message
from the thrown value (the `instanceof` chain; the typed client errors are the
`FigmaApiError` family, whose retryable flag appends a suffix), then returns
one text block holding the serialized error object, with `isError` set. -/
def formatError (e : Thrown) : ToolResponse :=
  let message :=
    match e with
    | .figma err => "Error: " ++ figmaErrorMessage err ++ (cond (figmaErrorRetryable err) " (retryable)" "")
    | .error m => "Error: " ++ m
    | .raw v => "Error: " ++ jsString v
  { content := [{ type := "text",
                  text := jsonStringify (.obj [("error", .str message), ("details", formatErrorForLogging e)]) }],
    isError := some true }

/-- `formatSuccess` (src/utils/formatters.ts lines 59-72): one text block
holding a `success` record, the optional data included only when present. -/
def formatSuccess (message : String) (data : Option Json) : ToolResponse :=
  let result : Json :=
    match data with
    | some d => .obj [("success", .bool true), ("message", .str message), ("data", d)]
    | none => .obj [("success", .bool true), ("message", .str message)]
  { content := [{ type := "text", text := jsonStringify result }], isError := none }

/-- The shapes of the registered tool handlers, as read off the tool files
(src/tools/files.ts and the other registration files): `passthrough` is the
`formatResponse(await client.method(...))` pattern used by every data-fetching
tool; `successMessage` is the `formatSuccess(message)` pattern used by the
delete and reaction tools (the message is built from the tool arguments);
`testConn` is the inline `figma_test_connection` handler of src/index.ts lines
109-131. Every handler wraps its client call in try/catch. -/
inductive HandlerKind where
  | passthrough
  | successMessage (message : String)
  | testConn

/-- A registered tool handler as a function of the outcome of its underlying
client call (the argument values only influence that outcome and, for the
success-message handlers, the message string, both of which are quantified in
the theorems). -/
def runHandler (kind : HandlerKind) (outcome : Except Thrown Json) : ToolResponse :=
  match kind, outcome with
  | .passthrough, .ok result => formatResponse result
  | .passthrough, .error e => formatError e
  | .successMessage message, .ok _ => formatSuccess message none
  | .successMessage _, .error e => formatError e
  | .testConn, .ok result =>
      { content := [{ type := "text", text := jsonStringify result }], isError := none }
  | .testConn, .error e =>
      { content := [{ type := "text",
                      text := "Connection failed: " ++
                        (match e with
                         | .figma err => figmaErrorMessage err
                         | .error m => m
                         | .raw _ => "Unknown error") }],
        isError := some true }

/-- An inbound request as the worker fetch handler inspects it: the URL path,
the HTTP method and the headers. -/
structure HttpRequest where
  pathname : String
  method : String
  headers : List (String × String)

/-- The outcome of the worker fetch handler (src/index.ts lines 144-276):
either a direct `Response` (whose body is the serialization of the given JSON
value) or, on the `/mcp` POST branch with validated credentials, the hand-off
to the MCP transport handler. The `mcpDelegated` constructor is the only path
on which an API client is constructed and an upstream call can ever be
issued. -/
inductive FetchResult where
  | response (status : Nat) (body : Json)
  | mcpDelegated (credentials : TenantCredentials)

/-- The JSON body of the 401 rejection (src/index.ts lines 165-175). -/
def mcpUnauthorizedBody (message : String) : Json :=
  .obj [("error", .str "Unauthorized"),
        ("message", .str message),
        ("required_headers", .arr [.str "X-Figma-Token"])]

/-- The static discovery document returned by the default route
(src/index.ts lines 195-275). -/
def discoveryDocument : Json :=
  .obj [
    ("name", .str "primrose-mcp-figma"),
    ("version", .str "1.0.0"),
    ("description", .str "Multi-tenant Figma MCP Server - Access the full Figma REST API"),
    ("endpoints", .obj [
      ("mcp", .str "/mcp (POST) - Streamable HTTP MCP endpoint"),
      ("health", .str "/health - Health check")]),
    ("authentication", .obj [
      ("description", .str "Pass Figma personal access token via request header"),
      ("required_headers", .obj [("X-Figma-Token", .str "Your Figma personal access token")]),
      ("optional_headers", .obj [("X-Figma-Base-URL", .str "Override the default Figma API base URL")])]),
    ("tools", .arr [
      .str "figma_get_file", .str "figma_get_file_nodes", .str "figma_get_file_meta",
      .str "figma_get_images", .str "figma_get_image_fills",
      .str "figma_get_comments", .str "figma_post_comment", .str "figma_delete_comment",
      .str "figma_get_comment_reactions", .str "figma_post_comment_reaction",
      .str "figma_delete_comment_reaction",
      .str "figma_get_team_projects", .str "figma_get_project_files",
      .str "figma_get_file_versions",
      .str "figma_get_team_components", .str "figma_get_file_components",
      .str "figma_get_component", .str "figma_get_team_component_sets",
      .str "figma_get_file_component_sets", .str "figma_get_component_set",
      .str "figma_get_team_styles", .str "figma_get_file_styles", .str "figma_get_style",
      .str "figma_get_webhooks", .str "figma_create_webhook", .str "figma_get_webhook",
      .str "figma_update_webhook", .str "figma_delete_webhook",
      .str "figma_get_webhook_requests",
      .str "figma_get_local_variables", .str "figma_get_published_variables",
      .str "figma_modify_variables",
      .str "figma_get_dev_resources", .str "figma_create_dev_resources",
      .str "figma_update_dev_resources", .str "figma_delete_dev_resource",
      .str "figma_get_activity_logs", .str "figma_get_payments",
      .str "figma_get_component_actions", .str "figma_get_component_usages",
      .str "figma_get_style_actions", .str "figma_get_style_usages",
      .str "figma_get_me", .str "figma_test_connection"])]

/-- The worker fetch handler (src/index.ts lines 144-276): the route dispatch
in source order. `/health` answers a static status; the `/mcp` POST branch
parses the tenant credentials, validates them, and either rejects with the
401 body or delegates to a freshly built server bound to those credentials;
`/sse` answers 501; every other request receives the discovery document. -/
def workerFetch (req : HttpRequest) : FetchResult :=
  if req.pathname = "/health" then
    .response 200 (.obj [("status", .str "ok"), ("server", .str "primrose-mcp-figma")])
  else if req.pathname = "/mcp" ∧ req.method = "POST" then
    let credentials := parseTenantCredentials req.headers
    match validateCredentials credentials with
    | .error message => .response 401 (mcpUnauthorizedBody message)
    | .ok _ => .mcpDelegated credentials
  else if req.pathname = "/sse" then
    .response 501 (.str "SSE endpoint requires Durable Objects. Enable in wrangler.jsonc.")
  else
    .response 200 discoveryDocument

/-- The options record of `getFile` (src/client.ts lines 135-142); every
field is optional. -/
structure GetFileOptions where
  version : Option String := none
  ids : Option (List String) := none
  depth : Option Int := none
  geometry : Option String := none
  plugin_data : Option String := none
  branch_data : Option Bool := none

/-- JS optional chaining `options?.field` over an optional options record. -/
def jsGet (options : Option GetFileOptions) (field : GetFileOptions → Option α) : Option α :=
  match options with
  | some o => field o
  | none => none

/-- `URLSearchParams.set`: replace the value of an existing key in place,
otherwise append the pair. -/
def setParam (params : List (String × String)) (key value : String) : List (String × String) :=
  if params.any (fun p => p.1 = key) then
    params.map (fun p => if p.1 = key then (key, value) else p)
  else
    params ++ [(key, value)]

/-- One hexadecimal digit (uppercase, as URLSearchParams emits). -/
def hexDigit (n : Nat) : Char :=
  if n < 10 then Char.ofNat (48 + n) else Char.ofNat (55 + n)

/-- Percent-encoding of one byte. -/
def percentEncodeByte (b : Nat) : String :=
  "%" ++ String.singleton (hexDigit (b / 16)) ++ String.singleton (hexDigit (b % 16))

/-- The characters URLSearchParams serialization leaves unescaped. -/
def formPlainChar (c : Char) : Bool :=
  c.isAlphanum || c = '*' || c = '-' || c = '.' || c = '_'

/-- application/x-www-form-urlencoded encoding of one character: unreserved
characters kept, space as a plus sign, everything else as percent-encoded
UTF-8 bytes. -/
def formEncodeChar (c : Char) : String :=
  if formPlainChar c then String.singleton c
  else if c = ' ' then "+"
  else String.join (((String.singleton c).toUTF8.toList).map (fun b => percentEncodeByte b.toNat))

/-- application/x-www-form-urlencoded encoding of a string. -/
def formEncode (s : String) : String :=
  String.join (s.data.map formEncodeChar)

/-- `URLSearchParams.toString`: ampersand-separated encoded pairs. -/
def paramsToString (params : List (String × String)) : String :=
  String.intercalate "&" (params.map (fun p => formEncode p.1 ++ "=" ++ formEncode p.2))

/-- The endpoint path built by `FigmaClientImpl.getFile` (src/client.ts lines
358-369): each option is serialized only when its guard holds (string options
when truthy, `depth` whenever defined, `ids` whenever the array is present,
`branch_data` when true), and the query string is appended only when
non-empty. -/
def getFilePath (fileKey : String) (options : Option GetFileOptions) : String :=
  let params : List (String × String) := []
  let params :=
    match jsGet options GetFileOptions.version with
    | some v => if v = "" then params else setParam params "version" v
    | none => params
  let params :=
    match jsGet options GetFileOptions.ids with
    | some ids => setParam params "ids" (String.intercalate "," ids)
    | none => params
  let params :=
    match jsGet options GetFileOptions.depth with
    | some d => setParam params "depth" (toString d)
    | none => params
  let params :=
    match jsGet options GetFileOptions.geometry with
    | some g => if g = "" then params else setParam params "geometry" g
    | none => params
  let params :=
    match jsGet options GetFileOptions.plugin_data with
    | some pd => if pd = "" then params else setParam params "plugin_data" pd
    | none => params
  let params :=
    match jsGet options GetFileOptions.branch_data with
    | some b => if b then setParam params "branch_data" "true" else params
    | none => params
  let query := paramsToString params
  "/v1/files/" ++ fileKey ++ (if query = "" then "" else "?" ++ query)

/-- An upstream request as issued by `fetch`: the HTTP method and the path
appended to the base URL. -/
structure RequestSpec where
  method : String
  path : String

/-- The single upstream request issued by `getFile` (src/client.ts lines
358-369): the source calls `this.request` exactly once, passing no method
override, so `fetch` uses GET. -/
def getFileRequest (fileKey : String) (options : Option GetFileOptions) : RequestSpec :=
  { method := "GET", path := getFilePath fileKey options }

/-- `FigmaClientImpl.deleteComment` (src/client.ts lines 441-445): awaits the
shared request on the comment path with method DELETE and returns `undefined`
(`.ok none`), discarding any parsed body. -/
def deleteComment (credentials : TenantCredentials) (fileKey commentId : String)
    (response : HttpResponse) : Except FigmaError (Option Json) :=
  match request credentials ("/v1/files/" ++ fileKey ++ "/comments/" ++ commentId) response with
  | .error e => .error e
  | .ok _ => .ok none

/-- `FigmaClientImpl.postCommentReaction` (src/client.ts lines 457-462):
awaits the shared request on the reactions path with method POST (the emoji
travels in the request body, which the response classification does not
carry) and returns `undefined`, discarding any parsed body. -/
def postCommentReaction (credentials : TenantCredentials)
    (fileKey commentId emoji : String) (response : HttpResponse) :
    Except FigmaError (Option Json) :=
  match request credentials ("/v1/files/" ++ fileKey ++ "/comments/" ++ commentId ++ "/reactions")
      response with
  | .error e => .error e
  | .ok _ => .ok none

/-- `FigmaClientImpl.deleteCommentReaction` (src/client.ts lines 464-470):
awaits the shared request on the reactions path carrying the emoji as a query
parameter, with method DELETE, and returns `undefined`, discarding any parsed
body. -/
def deleteCommentReaction (credentials : TenantCredentials)
    (fileKey commentId emoji : String) (response : HttpResponse) :
    Except FigmaError (Option Json) :=
  match request credentials
      ("/v1/files/" ++ fileKey ++ "/comments/" ++ commentId ++ "/reactions?" ++
        paramsToString (setParam [] "emoji" emoji)) response with
  | .error e => .error e
  | .ok _ => .ok none

/-- `FigmaClientImpl.deleteWebhook` (src/client.ts lines 589-593): awaits the
shared request on the webhook path with method DELETE and returns `undefined`,
discarding any parsed body. -/
def deleteWebhook (credentials : TenantCredentials) (webhookId : String)
    (response : HttpResponse) : Except FigmaError (Option Json) :=
  match request credentials ("/v2/webhooks/" ++ webhookId) response with
  | .error e => .error e
  | .ok _ => .ok none

/-- `FigmaClientImpl.deleteDevResource` (src/client.ts lines 644-648): awaits
the shared request on the dev-resource path with method DELETE and returns
`undefined`, discarding any parsed body. -/
def deleteDevResource (credentials : TenantCredentials)
    (fileKey devResourceId : String) (response : HttpResponse) :
    Except FigmaError (Option Json) :=
  match request credentials ("/v1/files/" ++ fileKey ++ "/dev_resources/" ++ devResourceId)
      response with
  | .error e => .error e
  | .ok _ => .ok none

/-- Whether an `Except` outcome is a success. -/
def exceptOk : Except ε α → Bool
  | .ok _ => true
  | .error _ => false

/-- The value of the first listed field of `j` that is present and truthy,
or the fallback when none is. Spelled from the specification wording of the
message-extraction rule, to be compared against `extractApiErrorMessage`. -/
def firstTruthy (j : Json) (keys : List String) (fallback : Json) : Json :=
  match keys with
  | [] => fallback
  | k :: rest =>
      match truthyField j k with
      | some v => v
      | none => firstTruthy j rest fallback

/-- C1: every registered tool handler, for every argument value and every
outcome of the underlying client call, returns the uniform envelope: exactly
one content block of type text, with the error flag absent on success and set
to true on failure; no thrown error propagates past the handler boundary. -/
theorem tool_handler_envelope (kind : HandlerKind) (outcome : Except Thrown Json) :
    (runHandler kind outcome).content.map ContentBlock.type = ["text"] ∧
    (runHandler kind outcome).isError =
      (match outcome with | .ok _ => none | .error _ => some true) := by
  cases kind <;> cases outcome <;>
    simp [runHandler, formatResponse, formatError, formatSuccess]

/-- C2: every POST request to the mcp route whose credential parsing yields
an absent access token is answered by the worker fetch handler with a 401
response whose body has a required_headers field naming X-Figma-Token, and
that request is never delegated to the MCP transport handler, so no API
client is constructed for it and no upstream call is issued. -/
theorem mcp_missing_token_rejected (req : HttpRequest)
    (hpath : req.pathname = "/mcp") (hmethod : req.method = "POST")
    (h : (parseTenantCredentials req.headers).accessToken = none) :
    workerFetch req = .response 401 (mcpUnauthorizedBody missingCredentialsMessage) ∧
    (mcpUnauthorizedBody missingCredentialsMessage).getField "required_headers" =
      some (.arr [.str "X-Figma-Token"]) ∧
    ∀ c, workerFetch req ≠ .mcpDelegated c := by
  have hv : validateCredentials (parseTenantCredentials req.headers) = .error missingCredentialsMessage := by
    simp [validateCredentials, strFalsy, h]
  refine ⟨by simp [workerFetch, hpath, hmethod, hv], rfl,
    fun c => by simp [workerFetch, hpath, hmethod, hv]⟩

/-- Witness for C2 at a concrete POST to the mcp route lacking the token
header. -/
theorem mcp_missing_token_rejected_witness :
    (parseTenantCredentials [("Content-Type", "application/json")]).accessToken = none ∧
    workerFetch ⟨"/mcp", "POST", [("Content-Type", "application/json")]⟩ =
      .response 401 (mcpUnauthorizedBody missingCredentialsMessage) := by
  have h : (parseTenantCredentials [("Content-Type", "application/json")]).accessToken = none := by
    decide
  exact ⟨h, (mcp_missing_token_rejected ⟨"/mcp", "POST", [("Content-Type", "application/json")]⟩
    rfl rfl h).1⟩

/-- C3 counterexample: a 429 response whose Retry-After header is present but
not numeric carries the NaN result of parseInt (modelled as `none`) as its
retry-after value, not the claimed default 60. -/
theorem rateLimit_unparseable_header_not_sixty :
    classifyResponse "/v1/me" ⟨429, some "abc", none⟩ =
      .error (.rateLimit "Rate limit exceeded" none) ∧
    retryAfterValue (some "abc") ≠ some 60 :=
  ⟨rfl, by decide⟩

/-- C3 as amended: a 429 response raises the rate-limit error whose
retry-after value is the parseInt of the Retry-After header when that header
is present and non-empty (NaN, modelled `none`, when no digits are found), and
60 exactly when the header is absent or empty. -/
theorem rateLimit_retry_after (endpoint : String) (header : Option String) (body : Option Json) :
    classifyResponse endpoint ⟨429, header, body⟩ =
      .error (.rateLimit "Rate limit exceeded" (retryAfterValue header)) ∧
    retryAfterValue none = some 60 ∧
    retryAfterValue (some "") = some 60 ∧
    (∀ s : String, s ≠ "" → retryAfterValue (some s) = parseIntJs s) := by
  refine ⟨rfl, rfl, rfl, fun s hs => ?_⟩
  simp [retryAfterValue, hs]

/-- Witness for C3 as amended, at a numeric Retry-After header. -/
theorem rateLimit_retry_after_witness :
    classifyResponse "/v1/me" ⟨429, some "60", none⟩ =
      .error (.rateLimit "Rate limit exceeded" (some 60)) := by
  have h := rateLimit_retry_after "/v1/me" (some "60") none
  have h4 := h.2.2.2 "60" (by decide)
  rw [h.1, h4]
  rfl

/-- C4 counterexample: a 500 response whose body is valid JSON containing a
message field does not use that field when its value is the empty string (a
falsy value is skipped by the `||` chain): the error message is the fallback,
not the empty string the claim requires. -/
theorem api_error_empty_message_field_skipped :
    classifyResponse "/v1/files/k" ⟨500, none, some (.obj [("message", .str "")])⟩ =
      .error (.api (.str "API error: 500") 500) ∧
    Json.str "API error: 500" ≠ Json.str "" := by
  refine ⟨rfl, fun h => ?_⟩
  exact absurd (Json.str.inj h) (by decide)

/-- C4 as amended: a non-2xx status other than 429, 401, 403 and 404 raises
the generic API error whose message is the value of the first of the fields
message, err, error whose value is present and truthy, and the fallback string
when the body is not valid JSON or no listed field is truthy. -/
theorem api_error_message_extraction (endpoint : String) (status : Nat)
    (header : Option String) (body : Option Json)
    (h429 : status ≠ 429) (h401 : status ≠ 401) (h403 : status ≠ 403) (h404 : status ≠ 404)
    (hok : responseOk status = false) :
    classifyResponse endpoint ⟨status, header, body⟩ =
      .error (.api (extractApiErrorMessage status body) status) ∧
    extractApiErrorMessage status none = .str ("API error: " ++ toString status) ∧
    (∀ j : Json, extractApiErrorMessage status (some j) =
      firstTruthy j ["message", "err", "error"] (.str ("API error: " ++ toString status))) := by
  refine ⟨?_, rfl, fun j => ?_⟩
  · simp only [classifyResponse]
    rw [if_neg h429, if_neg h401, if_neg h403, if_neg h404, if_pos hok]
  · cases hm : j.getField "message" <;> cases he : j.getField "err" <;>
      cases hr : j.getField "error" <;>
      simp [extractApiErrorMessage, firstTruthy, truthyField, jsOr, hm, he, hr] <;>
      split_ifs <;> simp_all

/-- Witness for C4 as amended, at a 500 response whose body carries a truthy
err field and no message field. -/
theorem api_error_message_extraction_witness :
    classifyResponse "/v1/files/k" ⟨500, none, some (.obj [("err", .str "boom")])⟩ =
      .error (.api (extractApiErrorMessage 500 (some (.obj [("err", .str "boom")]))) 500) ∧
    extractApiErrorMessage 500 (some (.obj [("err", .str "boom")])) = .str "boom" := by
  have h := api_error_message_extraction "/v1/files/k" 500 none
    (some (.obj [("err", .str "boom")]))
    (by decide) (by decide) (by decide) (by decide) (by decide)
  exact ⟨h.1, rfl⟩

/-- C5: on the shared request path, status 401 raises the authentication
error, 403 the forbidden error and 404 the not-found error, uniformly in the
endpoint (hence in the operation) and in the rest of the response. -/
theorem status_error_kinds (endpoint : String) (header : Option String) (body : Option Json) :
    classifyResponse endpoint ⟨401, header, body⟩ =
      .error (.authentication "Authentication failed. Check your Figma personal access token.") ∧
    classifyResponse endpoint ⟨403, header, body⟩ =
      .error (.forbidden "Access forbidden. You may not have permission to access this resource.") ∧
    classifyResponse endpoint ⟨404, header, body⟩ =
      .error (.notFound "Resource" endpoint) :=
  ⟨rfl, rfl, rfl⟩

/-- The shared classification path yields exactly the parsed body on a 2xx
response other than 204 with a valid-JSON body. Helper for the round-trip
theorem. -/
theorem classify_roundtrip (endpoint : String) (status : Nat) (header : Option String)
    (j : Json) (hok : responseOk status = true) (h204 : status ≠ 204) :
    classifyResponse endpoint ⟨status, header, some j⟩ = .ok (some j) := by
  have hb : 200 ≤ status ∧ status ≤ 299 := by simpa [responseOk] using hok
  simp only [classifyResponse]
  rw [if_neg (by omega), if_neg (by omega), if_neg (by omega), if_neg (by omega),
    if_neg (by simp [hok]), if_neg h204]

/-- C6 counterexample: deleteComment on a 200 response with a valid JSON body
returns the absent value, not the parsed body: the source awaits the shared
request and returns nothing, so the claimed round trip fails for the void
operations. -/
theorem deleteComment_discards_body :
    deleteComment ⟨some "tok", none⟩ "k" "c" ⟨200, none, some (.obj [("ok", .bool true)])⟩ =
      .ok none ∧
    (Except.ok none : Except FigmaError (Option Json)) ≠ .ok (some (.obj [("ok", .bool true)])) := by
  refine ⟨rfl, fun h => ?_⟩
  exact Option.noConfusion (Except.ok.inj h)

/-- C6 as amended: every operation returning its typed payload hands back the
shared request result directly, and that result is the parsed body unchanged
on a 2xx non-204 valid-JSON response; the five void operations deleteComment,
postCommentReaction, deleteCommentReaction, deleteWebhook and deleteDevResource
run the same shared path but discard the parsed body and return the absent
value on such responses. -/
theorem success_roundtrip_except_void (credentials : TenantCredentials)
    (endpoint fileKey commentId emoji webhookId devResourceId : String)
    (status : Nat) (header : Option String) (j : Json)
    (hcred : validateCredentials credentials = .ok ())
    (hok : responseOk status = true) (h204 : status ≠ 204) :
    request credentials endpoint ⟨status, header, some j⟩ = .ok (some j) ∧
    deleteComment credentials fileKey commentId ⟨status, header, some j⟩ = .ok none ∧
    postCommentReaction credentials fileKey commentId emoji ⟨status, header, some j⟩ = .ok none ∧
    deleteCommentReaction credentials fileKey commentId emoji ⟨status, header, some j⟩ = .ok none ∧
    deleteWebhook credentials webhookId ⟨status, header, some j⟩ = .ok none ∧
    deleteDevResource credentials fileKey devResourceId ⟨status, header, some j⟩ = .ok none := by
  have hfal : strFalsy credentials.accessToken = false := by
    cases hs : strFalsy credentials.accessToken
    · rfl
    · simp [validateCredentials, hs] at hcred
  have hauth : getAuthHeaders credentials =
      .ok [("X-Figma-Token", credentials.accessToken.getD ""), ("Content-Type", "application/json")] := by
    simp [getAuthHeaders, hfal]
  have hreq : ∀ ep : String, request credentials ep ⟨status, header, some j⟩ = .ok (some j) := by
    intro ep
    simp [request, hauth, classify_roundtrip ep status header j hok h204]
  refine ⟨hreq endpoint, ?_, ?_, ?_, ?_, ?_⟩ <;>
    simp [deleteComment, postCommentReaction, deleteCommentReaction, deleteWebhook,
      deleteDevResource, hreq]

/-- Witness for C6 as amended, at a 200 response with a concrete JSON body. -/
theorem success_roundtrip_except_void_witness :
    request ⟨some "tok", none⟩ "/v1/me" ⟨200, none, some (.obj [])⟩ = .ok (some (.obj [])) ∧
    deleteWebhook ⟨some "tok", none⟩ "w" ⟨200, none, some (.obj [])⟩ = .ok none := by
  have h := success_roundtrip_except_void ⟨some "tok", none⟩ "/v1/me" "k" "c" "e" "w" "d"
    200 none (.obj []) rfl (by decide) (by decide)
  exact ⟨h.1, h.2.2.2.2.1⟩

/-- C7: a 204 response yields the absent result, for every operation endpoint
and whatever the body text is, valid JSON or not: the body is never parsed on
this path, so no parse error can arise. -/
theorem status_204_no_parse (endpoint : String) (header : Option String) (body : Option Json) :
    classifyResponse endpoint ⟨204, header, body⟩ = .ok none :=
  rfl

/-- C8: testConnection is a total function of the underlying getMe outcome: on
success it reports connected with the user payload, on any thrown value it
reports not connected with the message of the failure, never re-raising. -/
theorem testConnection_never_raises (outcome : Except Thrown Json) :
    (testConnection outcome).connected = exceptOk outcome ∧
    (∀ u, outcome = .ok u →
      testConnection outcome =
        { connected := true, message := "Successfully connected to Figma API", user := some u }) ∧
    (∀ e, outcome = .error e →
      testConnection outcome = { connected := false, message := thrownMessage e, user := none }) := by
  cases outcome <;> simp [testConnection, exceptOk]

/-- Witness for C8 at a concrete authentication failure of getMe. -/
theorem testConnection_never_raises_witness :
    testConnection (.error (.figma (.authentication "bad token"))) =
      { connected := false, message := "bad token", user := none } := by
  have h := (testConnection_never_raises (.error (.figma (.authentication "bad token")))).2.2
  simpa [thrownMessage, figmaErrorMessage] using h _ rfl

/-- C9: getFile of file key abc123 with only depth 2 set issues the single
upstream GET request to /v1/files/abc123?depth=2, with no parameter for any
omitted optional field, and a 200 response returns the parsed body. -/
theorem getFile_depth_example :
    getFileRequest "abc123" (some { depth := some 2 }) =
      { method := "GET", path := "/v1/files/abc123?depth=2" } ∧
    (∀ (header : Option String) (j : Json),
      classifyResponse (getFilePath "abc123" (some { depth := some 2 })) ⟨200, header, some j⟩ =
        .ok (some j)) :=
  ⟨rfl, fun _ _ => rfl⟩

/-- C10: the credential validator and the auth-header construction test the
same falsiness predicate on the access token, so a validated credentials value
never trips the defensive authentication branch and always yields the two
upstream headers with the token. -/
theorem validate_implies_authHeaders (credentials : TenantCredentials) :
    exceptOk (validateCredentials credentials) = exceptOk (getAuthHeaders credentials) ∧
    (validateCredentials credentials = .ok () →
      ∃ t, credentials.accessToken = some t ∧
        getAuthHeaders credentials =
          .ok [("X-Figma-Token", t), ("Content-Type", "application/json")]) := by
  constructor
  · cases h : strFalsy credentials.accessToken <;>
      simp [validateCredentials, getAuthHeaders, h, exceptOk]
  · intro hv
    have h : strFalsy credentials.accessToken = false := by
      cases hs : strFalsy credentials.accessToken
      · rfl
      · simp [validateCredentials, hs] at hv
    obtain ⟨t, ht⟩ : ∃ t, credentials.accessToken = some t := by
      cases hat : credentials.accessToken
      · simp [strFalsy, hat] at h
      · exact ⟨_, rfl⟩
    have h2 : strFalsy (some t) = false := by rw [← ht]; exact h
    exact ⟨t, ht, by simp [getAuthHeaders, ht, h2]⟩

/-- Witness for C10 at a concrete validated credentials value. -/
theorem validate_implies_authHeaders_witness :
    validateCredentials ⟨some "token123", none⟩ = .ok () ∧
    getAuthHeaders ⟨some "token123", none⟩ =
      .ok [("X-Figma-Token", "token123"), ("Content-Type", "application/json")] := by
  obtain ⟨t, ht, hh⟩ := (validate_implies_authHeaders ⟨some "token123", none⟩).2 rfl
  have ht2 : t = "token123" := (Option.some.inj ht).symm
  rw [ht2] at hh
  exact ⟨rfl, hh⟩

end FigmaMcp
